import Mathlib

/-!
Verification of the dataset-conversion pipeline in
`meta_dataset/dataset_conversion/dataset_to_hdf5.py`.

The Python module is shallowly embedded: pure computations become Lean
functions, the mutable h5py datasets become lists with explicit
resize/set operations, exceptions become `Except`, and the ambient
numpy random generator becomes an explicit state threaded through the
split computation.  The module is Python 2 code (it uses `cmp`, relies
on `map` returning a list, and opens binary image files in text mode),
so the numeric model uses Python 2 `round` semantics (ties away from
zero).
-/

namespace DatasetToHdf5

/-- learning_spec.Split: the three benchmark splits, TRAIN < VALID < TEST. -/
inductive Split
  | TRAIN
  | VALID
  | TEST
deriving DecidableEq, Repr

/-- The three split-ordered lists of native class identifiers obtained
from get_splits: splits['train'], splits['valid'], splits['test']. -/
structure SplitClassLists (α : Type) where
  train : List α
  valid : List α
  test : List α

/-- all_classes = np.concatenate([train_classes, valid_classes, test_classes])
(CUBirdsConverter line 885, VGGFlowerConverter line 946). -/
def all_classes {α : Type} (s : SplitClassLists α) : List α :=
  s.train ++ s.valid ++ s.test

/-- classes_per_split as assigned in create_dataset_specification_and_records:
the lengths of the three split lists (CUBirds lines 880-882). -/
def classes_per_split {α : Type} (s : SplitClassLists α) : Split → Nat
  | .TRAIN => s.train.length
  | .VALID => s.valid.length
  | .TEST => s.test.length

/-- class_names: the dict built by
`for class_id, class_label in enumerate(all_classes): class_names[class_id] = class_label`;
its keys are dense over [0, len(all_classes)), so it is the positional list. -/
def class_names {α : Type} (s : SplitClassLists α) : List α :=
  all_classes s

/-- images_per_class: the dict built in the same enumerate loop, assigning to
class_id the image count of the class at that position. -/
def images_per_class {α : Type} (imgCount : α → Nat) (s : SplitClassLists α) : List Nat :=
  (all_classes s).map imgCount

/-- C1: After a full conversion, class IDs are allocated positionally over the
concatenation of the train, valid and test class lists in that fixed order:
a class_id c below classes_per_split[TRAIN] denotes the c-th TRAIN class, the
next classes_per_split[VALID] IDs denote VALID classes, all remaining IDs
denote TEST classes, and the classes_per_split counts sum to the number of
entries of class_names and of images_per_class. -/
theorem class_id_allocation_ordering {α : Type} (s : SplitClassLists α) (imgCount : α → Nat) :
    (∀ c : Nat, c < classes_per_split s .TRAIN → (class_names s)[c]? = s.train[c]?)
    ∧ (∀ c : Nat, classes_per_split s .TRAIN ≤ c →
        c < classes_per_split s .TRAIN + classes_per_split s .VALID →
        (class_names s)[c]? = s.valid[c - classes_per_split s .TRAIN]?)
    ∧ (∀ c : Nat, classes_per_split s .TRAIN + classes_per_split s .VALID ≤ c →
        (class_names s)[c]? = s.test[c - (classes_per_split s .TRAIN + classes_per_split s .VALID)]?)
    ∧ classes_per_split s .TRAIN + classes_per_split s .VALID + classes_per_split s .TEST
        = (class_names s).length
    ∧ (class_names s).length = (images_per_class imgCount s).length := by
  refine ⟨?_, ?_, ?_, ?_, ?_⟩
  · intro c hc
    simp only [classes_per_split] at hc
    simp [class_names, all_classes, List.getElem?_append, hc]
  · intro c hc1 hc2
    simp only [classes_per_split] at hc1 hc2 ⊢
    rw [class_names, all_classes, List.getElem?_append,
      if_pos (by simp only [List.length_append]; omega),
      List.getElem?_append_right (by omega)]
  · intro c hc
    simp only [classes_per_split] at hc ⊢
    rw [class_names, all_classes,
      List.getElem?_append_right (by simp only [List.length_append]; omega)]
    congr 1
    simp only [List.length_append]
  · simp only [classes_per_split, class_names, all_classes, List.length_append]
  · simp [class_names, images_per_class]

/-- Concrete instantiation used by the witnesses for class-ID allocation. -/
def exSplitLists : SplitClassLists Nat :=
  { train := [100, 101], valid := [102], test := [103, 104] }

/-- Witness: the allocation theorem evaluated on a concrete 2/1/2 split. -/
theorem class_id_allocation_ordering_witness :
    (1 < classes_per_split exSplitLists .TRAIN
      ∧ (class_names exSplitLists)[1]? = exSplitLists.train[1]?)
    ∧ (classes_per_split exSplitLists .TRAIN ≤ 2
      ∧ 2 < classes_per_split exSplitLists .TRAIN + classes_per_split exSplitLists .VALID
      ∧ (class_names exSplitLists)[2]? = exSplitLists.valid[2 - classes_per_split exSplitLists .TRAIN]?)
    ∧ (classes_per_split exSplitLists .TRAIN + classes_per_split exSplitLists .VALID ≤ 3
      ∧ (class_names exSplitLists)[3]? =
          exSplitLists.test[3 - (classes_per_split exSplitLists .TRAIN + classes_per_split exSplitLists .VALID)]?) :=
  ⟨⟨by decide, (class_id_allocation_ordering exSplitLists id).1 1 (by decide)⟩,
   ⟨by decide, by decide,
     (class_id_allocation_ordering exSplitLists id).2.1 2 (by decide) (by decide)⟩,
   ⟨by decide, (class_id_allocation_ordering exSplitLists id).2.2.1 3 (by decide)⟩⟩

/-- Model of np.setdiff1d: the sorted unique values of `a` that are not in `b`. -/
def setdiff1d (a b : List Nat) : List Nat :=
  List.insertionSort (· ≤ ·) (a.dedup.filter (fun x => decide (x ∉ b)))

/-- Embedding of gen_rand_split_inds.  The two np.random.choice draws without
replacement are passed in as `trainval_inds` (drawn from [0, num_classes)) and
`train_inds` (drawn from trainval_inds); test_inds and valid_inds are the two
np.setdiff1d complements computed by the source. -/
def gen_rand_split_inds (num_classes : Nat) (trainval_inds train_inds : List Nat) :
    List Nat × List Nat × List Nat :=
  let test_inds := setdiff1d (List.range num_classes) trainval_inds
  let valid_inds := setdiff1d trainval_inds train_inds
  (train_inds, valid_inds, test_inds)

theorem mem_setdiff1d {a b : List Nat} {x : Nat} :
    x ∈ setdiff1d a b ↔ x ∈ a ∧ x ∉ b := by
  simp [setdiff1d, List.mem_insertionSort, List.mem_filter, List.mem_dedup]

theorem sorted_setdiff1d (a b : List Nat) :
    List.Sorted (· ≤ ·) (setdiff1d a b) :=
  List.sorted_insertionSort (· ≤ ·) _

theorem nodup_setdiff1d (a b : List Nat) : (setdiff1d a b).Nodup :=
  (List.perm_insertionSort (· ≤ ·) _).nodup_iff.mpr (a.nodup_dedup.filter _)

theorem length_setdiff1d {a b : List Nat} (ha : a.Nodup) (hb : b.Nodup)
    (hsub : ∀ x ∈ b, x ∈ a) : (setdiff1d a b).length = a.length - b.length := by
  have hfil : (setdiff1d a b).length = (a.filter (fun x => decide (x ∉ b))).length := by
    rw [setdiff1d, List.length_insertionSort, List.dedup_eq_self.mpr ha]
  have hnd : (a.filter (fun x => decide (x ∉ b))).Nodup := ha.filter _
  have hcard : (a.filter (fun x => decide (x ∉ b))).toFinset = a.toFinset \ b.toFinset := by
    ext x
    simp [List.mem_toFinset, List.mem_filter]
  have hsubF : b.toFinset ⊆ a.toFinset := by
    intro x hx
    rw [List.mem_toFinset] at hx ⊢
    exact hsub x hx
  calc (setdiff1d a b).length
      = (a.filter (fun x => decide (x ∉ b))).toFinset.card := by
        rw [hfil, List.toFinset_card_of_nodup hnd]
    _ = (a.toFinset \ b.toFinset).card := by rw [hcard]
    _ = a.toFinset.card - b.toFinset.card := Finset.card_sdiff hsubF
    _ = a.length - b.length := by
        rw [List.toFinset_card_of_nodup ha, List.toFinset_card_of_nodup hb]

/-- C3: for split counts (t, v, s) with t+v+s = N, gen_rand_split_inds returns
three pairwise disjoint lists of lengths exactly t, v and s whose union is the
full index range [0, N); valid and test come out sorted, while train is the
draw itself, i.e. in draw order. -/
theorem gen_rand_split_inds_partition
    (t v s num_classes : Nat) (trainval_inds train_inds : List Nat)
    (hN : num_classes = t + v + s)
    (htv_nd : trainval_inds.Nodup)
    (htv_mem : ∀ x ∈ trainval_inds, x < num_classes)
    (htv_len : trainval_inds.length = t + v)
    (htr_nd : train_inds.Nodup)
    (htr_mem : ∀ x ∈ train_inds, x ∈ trainval_inds)
    (htr_len : train_inds.length = t) :
    (gen_rand_split_inds num_classes trainval_inds train_inds).1.length = t
    ∧ (gen_rand_split_inds num_classes trainval_inds train_inds).2.1.length = v
    ∧ (gen_rand_split_inds num_classes trainval_inds train_inds).2.2.length = s
    ∧ (∀ x, ¬(x ∈ (gen_rand_split_inds num_classes trainval_inds train_inds).1
          ∧ x ∈ (gen_rand_split_inds num_classes trainval_inds train_inds).2.1))
    ∧ (∀ x, ¬(x ∈ (gen_rand_split_inds num_classes trainval_inds train_inds).1
          ∧ x ∈ (gen_rand_split_inds num_classes trainval_inds train_inds).2.2))
    ∧ (∀ x, ¬(x ∈ (gen_rand_split_inds num_classes trainval_inds train_inds).2.1
          ∧ x ∈ (gen_rand_split_inds num_classes trainval_inds train_inds).2.2))
    ∧ (∀ x, x < num_classes ↔
          (x ∈ (gen_rand_split_inds num_classes trainval_inds train_inds).1
          ∨ x ∈ (gen_rand_split_inds num_classes trainval_inds train_inds).2.1
          ∨ x ∈ (gen_rand_split_inds num_classes trainval_inds train_inds).2.2))
    ∧ List.Sorted (· ≤ ·) (gen_rand_split_inds num_classes trainval_inds train_inds).2.1
    ∧ List.Sorted (· ≤ ·) (gen_rand_split_inds num_classes trainval_inds train_inds).2.2
    ∧ (gen_rand_split_inds num_classes trainval_inds train_inds).1 = train_inds := by
  have g1 : (gen_rand_split_inds num_classes trainval_inds train_inds).1 = train_inds := rfl
  have g2 : (gen_rand_split_inds num_classes trainval_inds train_inds).2.1
      = setdiff1d trainval_inds train_inds := rfl
  have g3 : (gen_rand_split_inds num_classes trainval_inds train_inds).2.2
      = setdiff1d (List.range num_classes) trainval_inds := rfl
  rw [g1, g2, g3]
  refine ⟨htr_len, ?_, ?_, ?_, ?_, ?_, ?_, sorted_setdiff1d _ _, sorted_setdiff1d _ _, rfl⟩
  · rw [length_setdiff1d htv_nd htr_nd htr_mem, htv_len, htr_len]
    omega
  · rw [length_setdiff1d (List.nodup_range num_classes) htv_nd
      (fun x hx => List.mem_range.mpr (htv_mem x hx)), List.length_range, htv_len]
    omega
  · intro x ⟨hx1, hx2⟩
    exact (mem_setdiff1d.mp hx2).2 hx1
  · intro x ⟨hx1, hx2⟩
    exact (mem_setdiff1d.mp hx2).2 (htr_mem x hx1)
  · intro x ⟨hx1, hx2⟩
    exact (mem_setdiff1d.mp hx2).2 (mem_setdiff1d.mp hx1).1
  · intro x
    constructor
    · intro hx
      by_cases hm : x ∈ trainval_inds
      · by_cases ht : x ∈ train_inds
        · exact Or.inl ht
        · exact Or.inr (Or.inl (mem_setdiff1d.mpr ⟨hm, ht⟩))
      · exact Or.inr (Or.inr (mem_setdiff1d.mpr ⟨List.mem_range.mpr hx, hm⟩))
    · intro hx
      rcases hx with ht | hv | hs
      · exact htv_mem x (htr_mem x ht)
      · exact htv_mem x (mem_setdiff1d.mp hv).1
      · exact List.mem_range.mp (mem_setdiff1d.mp hs).1

/-- Witness: gen_rand_split_inds on a concrete draw with N = 6, (t, v, s) = (2, 2, 2),
trainval drawn as [4, 2, 0, 5] and train drawn as [5, 0]. -/
theorem gen_rand_split_inds_partition_witness :
    ((6 : Nat) = 2 + 2 + 2
      ∧ ([4, 2, 0, 5] : List Nat).Nodup
      ∧ (∀ x ∈ ([4, 2, 0, 5] : List Nat), x < 6)
      ∧ ([4, 2, 0, 5] : List Nat).length = 2 + 2
      ∧ ([5, 0] : List Nat).Nodup
      ∧ (∀ x ∈ ([5, 0] : List Nat), x ∈ ([4, 2, 0, 5] : List Nat))
      ∧ ([5, 0] : List Nat).length = 2)
    ∧ ((gen_rand_split_inds 6 [4, 2, 0, 5] [5, 0]).1.length = 2
      ∧ (gen_rand_split_inds 6 [4, 2, 0, 5] [5, 0]).2.1.length = 2
      ∧ (gen_rand_split_inds 6 [4, 2, 0, 5] [5, 0]).2.2.length = 2) := by
  refine ⟨by decide, ?_⟩
  have h := gen_rand_split_inds_partition 2 2 2 6 [4, 2, 0, 5] [5, 0]
    (by decide) (by decide) (by decide) (by decide) (by decide) (by decide) (by decide)
  exact ⟨h.1, h.2.1, h.2.2.1⟩

/-- Global numpy random state, abstractly.  np.random.seed(seed) puts the
generator into a state fully determined by the seed. -/
structure RngState where
  state : Nat
deriving DecidableEq, Repr

/-- np.random.seed(seed). -/
def np_random_seed (seed : Nat) : RngState := ⟨seed⟩

/-- The dictionary with keys 'train', 'valid', 'test' produced by create_splits
and cached in the split file. -/
structure SplitsDict where
  train : List Nat
  valid : List Nat
  test : List Nat
deriving DecidableEq, Repr

/-- Observable side effects of get_splits. -/
inductive SplitsAction
  | reseed (seed : Nat)
  | computeSplits
  | writeSplitFile
deriving DecidableEq, Repr

/-- State get_splits interacts with: the contents of the split cache file
(none when the file does not exist, in which case read_splits returns False)
and the global numpy random generator. -/
structure ConvState where
  split_file : Option SplitsDict
  rng : RngState
deriving DecidableEq, Repr

/-- The fall-through path of DatasetConverter.get_splits (lines 614-627):
re-seed numpy's generator from self.seed, call the subclass create_splits
(a function of the global RNG state), persist the result to the split file
and return it. -/
def get_splits_compute (create_splits : RngState → SplitsDict × RngState)
    (seed : Nat) : SplitsDict × ConvState × List SplitsAction :=
  let rng1 := np_random_seed seed
  let res := create_splits rng1
  (res.1, ⟨some res.1, res.2⟩,
    [SplitsAction.reseed seed, SplitsAction.computeSplits, SplitsAction.writeSplitFile])

/-- DatasetConverter.get_splits (lines 591-627): read the cached splits;
if they exist (read_splits is truthy: a cached splits dict has the three keys,
hence is never falsy) and force_create is not set, return them unchanged and
perform no action; otherwise compute, persist and return. -/
def get_splits (create_splits : RngState → SplitsDict × RngState)
    (seed : Nat) (force_create : Bool) (st : ConvState) :
    SplitsDict × ConvState × List SplitsAction :=
  match st.split_file with
  | some splits =>
    if force_create then get_splits_compute create_splits seed
    else (splits, st, [])
  | none => get_splits_compute create_splits seed

/-- C9: when the split cache file exists and recomputation is not forced,
get_splits returns the cached assignment with no reseed, recompute or write;
when the cache file is absent this is not an error: the splits are computed
after reseeding, persisted to the split-file location, and returned. -/
theorem split_cache_contract (create_splits : RngState → SplitsDict × RngState)
    (seed : Nat) (force_create : Bool) (st : ConvState) :
    (∀ splits, st.split_file = some splits → force_create = false →
      get_splits create_splits seed force_create st = (splits, st, []))
    ∧ (st.split_file = none →
      get_splits create_splits seed force_create st =
        ((create_splits (np_random_seed seed)).1,
         ⟨some (create_splits (np_random_seed seed)).1, (create_splits (np_random_seed seed)).2⟩,
         [SplitsAction.reseed seed, SplitsAction.computeSplits, SplitsAction.writeSplitFile])) := by
  constructor
  · intro splits hsome hforce
    simp [get_splits, hsome, hforce]
  · intro hnone
    simp [get_splits, hnone, get_splits_compute]

/-- Concrete create_splits used by the witnesses: its output depends on the
RNG state it is given, so it can tell whether reseeding happened. -/
def exCreateSplits (rng : RngState) : SplitsDict × RngState :=
  (⟨[rng.state], [rng.state + 1], [rng.state + 2]⟩, ⟨rng.state + 3⟩)

/-- Witness: the caching contract at a concrete cache hit and a concrete miss. -/
theorem split_cache_contract_witness :
    ((⟨some ⟨[9], [], []⟩, ⟨77⟩⟩ : ConvState).split_file = some ⟨[9], [], []⟩
      ∧ get_splits exCreateSplits 22 false ⟨some ⟨[9], [], []⟩, ⟨77⟩⟩
          = (⟨[9], [], []⟩, ⟨some ⟨[9], [], []⟩, ⟨77⟩⟩, []))
    ∧ ((⟨none, ⟨77⟩⟩ : ConvState).split_file = none
      ∧ get_splits exCreateSplits 22 false ⟨none, ⟨77⟩⟩
          = (⟨[22], [23], [24]⟩, ⟨some ⟨[22], [23], [24]⟩, ⟨25⟩⟩,
             [SplitsAction.reseed 22, SplitsAction.computeSplits, SplitsAction.writeSplitFile])) := by
  refine ⟨⟨rfl, ?_⟩, ⟨rfl, ?_⟩⟩
  · exact (split_cache_contract exCreateSplits 22 false ⟨some ⟨[9], [], []⟩, ⟨77⟩⟩).1
      ⟨[9], [], []⟩ rfl rfl
  · exact (split_cache_contract exCreateSplits 22 false ⟨none, ⟨77⟩⟩).2 rfl

/-- C4: the random-stratified split computation is deterministic in the seed:
because numpy's generator is re-seeded from the supplied seed immediately
before create_splits runs, two invocations of get_splits with the same seed
and no cached file yield identical train, valid and test lists even when the
prior global RNG states differ arbitrarily. -/
theorem get_splits_seed_determinism (create_splits : RngState → SplitsDict × RngState)
    (seed : Nat) (force1 force2 : Bool) (st1 st2 : ConvState)
    (h1 : st1.split_file = none) (h2 : st2.split_file = none) :
    (get_splits create_splits seed force1 st1).1.train
      = (get_splits create_splits seed force2 st2).1.train
    ∧ (get_splits create_splits seed force1 st1).1.valid
      = (get_splits create_splits seed force2 st2).1.valid
    ∧ (get_splits create_splits seed force1 st1).1.test
      = (get_splits create_splits seed force2 st2).1.test := by
  simp [get_splits, h1, h2]

/-- Witness: two runs from different prior RNG states (5 versus 12345) with the
same seed produce the same partition. -/
theorem get_splits_seed_determinism_witness :
    ((⟨none, ⟨5⟩⟩ : ConvState).split_file = none
      ∧ (⟨none, ⟨12345⟩⟩ : ConvState).split_file = none)
    ∧ (get_splits exCreateSplits 22 false ⟨none, ⟨5⟩⟩).1.train
        = (get_splits exCreateSplits 22 false ⟨none, ⟨12345⟩⟩).1.train :=
  ⟨⟨rfl, rfl⟩,
   (get_splits_seed_determinism exCreateSplits 22 false false
     ⟨none, ⟨5⟩⟩ ⟨none, ⟨12345⟩⟩ rfl rfl).1⟩

/-- Python exception values that the embedded code can raise. -/
inductive PyErr
  | ioError (msg : String)
  | nameError (nm : String)
  | attributeError (msg : String)
deriving DecidableEq, Repr

/-- Abstract pixel content of a PIL image; constructors record which
transforms have been applied to the decoded source. -/
inductive PixData
  | raw (n : Nat)
  | toRGB (p : PixData)
  | cropped (x0 y0 x1 y1 : Int) (p : PixData)
  | inverted (p : PixData)
deriving DecidableEq, Repr

/-- A decoded PIL image: its container format, color mode and pixel data. -/
structure PILImage where
  format : String
  mode : String
  pix : PixData
deriving DecidableEq, Repr

/-- PIL crop box (4-tuple of pixel bounds). -/
structure BBox where
  x0 : Int
  y0 : Int
  x1 : Int
  y1 : Int
deriving DecidableEq, Repr

/-- img.convert('RGB'). -/
def convertRGB (img : PILImage) : PILImage :=
  { img with mode := "RGB", pix := .toRGB img.pix }

/-- img.crop(bbox). -/
def cropImage (img : PILImage) (b : BBox) : PILImage :=
  { img with pix := .cropped b.x0 b.y0 b.x1 b.y1 img.pix }

/-- ImageOps.invert(img). -/
def invertImage (img : PILImage) : PILImage :=
  { img with pix := .inverted img.pix }

/-- Injective numeric code of an integer, used by the byte-level encoder. -/
def intCode : Int → Nat
  | .ofNat n => 2 * n
  | .negSucc n => 2 * n + 1

/-- Byte rendering of abstract pixel data. -/
def pixBytes : PixData → List Nat
  | .raw n => [0, n]
  | .toRGB p => 1 :: pixBytes p
  | .cropped x0 y0 x1 y1 p => 2 :: intCode x0 :: intCode y0 :: intCode x1 :: intCode y1 :: pixBytes p
  | .inverted p => 3 :: pixBytes p

/-- Byte rendering of a string (its character codes). -/
def strBytes (s : String) : List Nat := s.data.map Char.toNat

/-- Canonical encoded byte stream of an image: img.save(buf, format=fmt)
followed by buf.getvalue(). -/
def encodeImage (fmt : String) (img : PILImage) : List Nat :=
  strBytes fmt ++ strBytes img.mode ++ pixBytes img.pix

/-- A source image file: its on-disk byte stream together with the result of
PIL Image.open on those bytes (an IOError message for an unreadable or
corrupt file). -/
structure SourceFile where
  bytes : List Nat
  opened : Except String PILImage
deriving Repr

/-- Embedding of load_and_process_image (lines 260-304).  The decoded image
and the needs-encoding flag are threaded exactly as in the source: the flag
starts as (img.format != output_format); a mode other than RGB forces a
convert and sets the flag; a supplied bbox forces a crop and sets the flag;
invert_img forces an inversion and sets the flag.  If the flag is still unset
the original byte stream is returned, otherwise the transformed image is
encoded to output_format. -/
def load_and_process_image (output_format : String) (invert_img : Bool)
    (file : SourceFile) (bbox : Option BBox) : Except PyErr (List Nat) :=
  match file.opened with
  | .error msg => .error (.ioError msg)
  | .ok img0 =>
    let s1 : PILImage × Bool := (img0, decide (img0.format ≠ output_format))
    let s2 : PILImage × Bool :=
      if img0.mode ≠ "RGB" then (convertRGB s1.1, true) else s1
    let s3 : PILImage × Bool :=
      match bbox with
      | some b => (cropImage s2.1 b, true)
      | none => s2
    let s4 : PILImage × Bool :=
      if invert_img then (invertImage s3.1, true) else s3
    .ok (if s4.2 then encodeImage output_format s4.1 else file.bytes)

/-- The transform pipeline the source applies when re-encoding is needed:
color-mode normalization to RGB when not already RGB, then the optional crop,
then the optional inversion. -/
def applied_transforms (img0 : PILImage) (bbox : Option BBox) (invert_img : Bool) : PILImage :=
  let i1 := if img0.mode ≠ "RGB" then convertRGB img0 else img0
  let i2 := match bbox with
    | some b => cropImage i1 b
    | none => i1
  if invert_img then invertImage i2 else i2

/-- C5: for a source image already in the target encoded format, already RGB,
with no bounding box supplied and inversion not requested, processing returns
the original byte stream unchanged; if any one of the four conditions fails,
the decoded image is transformed and re-encoded to the target format. -/
theorem image_reencode_skip (output_format : String) (invert_img : Bool)
    (file : SourceFile) (bbox : Option BBox) (img0 : PILImage)
    (hopen : file.opened = .ok img0) :
    (img0.format = output_format ∧ img0.mode = "RGB" ∧ bbox = none ∧ invert_img = false →
      load_and_process_image output_format invert_img file bbox = .ok file.bytes)
    ∧ (¬(img0.format = output_format ∧ img0.mode = "RGB" ∧ bbox = none ∧ invert_img = false) →
      load_and_process_image output_format invert_img file bbox
        = .ok (encodeImage output_format (applied_transforms img0 bbox invert_img))) := by
  constructor
  · intro ⟨hfmt, hmode, hbox, hinv⟩
    simp [load_and_process_image, hopen, hfmt, hmode, hbox, hinv]
  · intro hfail
    rw [load_and_process_image, hopen]
    by_cases hfmt : img0.format = output_format
    · by_cases hmode : img0.mode = "RGB"
      · cases hbox : bbox with
        | some b =>
          cases invert_img <;>
            simp [hfmt, hmode, applied_transforms, hbox]
        | none =>
          cases hinv : invert_img with
          | true => simp [hfmt, hmode, applied_transforms, hbox]
          | false => exact absurd ⟨hfmt, hmode, hbox, hinv⟩ hfail
      · cases bbox <;> cases invert_img <;> simp [hfmt, hmode, applied_transforms]
    · by_cases hmode : img0.mode = "RGB" <;>
        cases bbox <;> cases invert_img <;> simp [hfmt, hmode, applied_transforms]

/-- Concrete already-canonical source file used by the witnesses. -/
def exGoodFile : SourceFile :=
  { bytes := [7, 7, 7], opened := .ok ⟨"JPEG", "RGB", .raw 4⟩ }

/-- Concrete non-RGB source file used by the witnesses. -/
def exGrayFile : SourceFile :=
  { bytes := [8, 8], opened := .ok ⟨"JPEG", "L", .raw 9⟩ }

/-- Witness: the pass-through case and a re-encode case evaluated concretely. -/
theorem image_reencode_skip_witness :
    (exGoodFile.opened = .ok ⟨"JPEG", "RGB", .raw 4⟩
      ∧ load_and_process_image "JPEG" false exGoodFile none = .ok exGoodFile.bytes)
    ∧ (exGrayFile.opened = .ok ⟨"JPEG", "L", .raw 9⟩
      ∧ load_and_process_image "JPEG" false exGrayFile none
          = .ok (encodeImage "JPEG" (applied_transforms ⟨"JPEG", "L", .raw 9⟩ none false))) := by
  refine ⟨⟨rfl, ?_⟩, ⟨rfl, ?_⟩⟩
  · exact (image_reencode_skip "JPEG" false exGoodFile none ⟨"JPEG", "RGB", .raw 4⟩ rfl).1
      ⟨rfl, rfl, rfl, rfl⟩
  · exact (image_reencode_skip "JPEG" false exGrayFile none ⟨"JPEG", "L", .raw 9⟩ rfl).2
      (by simp)

/-- A per-class hdf5 container: its `images` (variable-length byte strings)
and `labels` (uint32) datasets. -/
structure Shard where
  images : List (List Nat)
  labels : List Nat
deriving DecidableEq, Repr

/-- dataset.resize(n, axis=0): truncate or grow to length n, new slots take
the dataset's fill value (empty byte string for images, 0 for labels). -/
def h5resize {β : Type} (xs : List β) (fill : β) (n : Nat) : List β :=
  xs.take n ++ List.replicate (n - xs.length) fill

/-- dataset[i] = v. -/
def h5set {β : Type} (xs : List β) (i : Nat) (v : β) : List β := xs.set i v

/-- Whether the except clause `except (IOError)` catches this exception. -/
def isIOError : PyErr → Bool
  | .ioError _ => true
  | _ => false

/-- The loop of write_tfrecord_from_image_files (lines 311-325), one step per
(path, bbox) pair.  On a successful load the images and labels datasets are
both resized to written_images_count + 1 and only the images slot is assigned
(the source never assigns writer["labels"][written_images_count], so the label
slot keeps the uint32 fill value 0); on an IOError the image is skipped when
skip_on_error is set and re-raised otherwise. -/
def write_loop (output_format : String) (invert_img : Bool) (skip_on_error : Bool) :
    List (SourceFile × Option BBox) → Shard → Nat → Except PyErr (Shard × Nat)
  | [], shard, count => .ok (shard, count)
  | fb :: rest, shard, count =>
    match load_and_process_image output_format invert_img fb.1 fb.2 with
    | .error e =>
      if skip_on_error && isIOError e then
        write_loop output_format invert_img skip_on_error rest shard count
      else
        .error e
    | .ok img =>
      let images1 := h5resize shard.images [] (count + 1)
      let labels1 := h5resize shard.labels 0 (count + 1)
      let images2 := h5set images1 count img
      write_loop output_format invert_img skip_on_error rest ⟨images2, labels1⟩ (count + 1)

/-- Embedding of write_tfrecord_from_image_files (lines 232-328).  class_files
is given as the list of (source file, optional bbox) pairs the enumerate loop
pairs up; class_label is accepted but — as in the source — never written into
the labels dataset. -/
def write_tfrecord_from_image_files (output_format : String) (invert_img : Bool)
    (class_label : Nat) (skip_on_error : Bool)
    (class_files : List (SourceFile × Option BBox)) : Except PyErr (Shard × Nat) :=
  let _ := class_label
  write_loop output_format invert_img skip_on_error class_files ⟨[], []⟩ 0

/-- One row of the class .npy array, loaded by load_image: reshaped to a
square single-channel image and converted to RGB. -/
def load_image_row (n : Nat) : PILImage :=
  convertRGB ⟨"", "L", .raw n⟩

/-- Evaluation of img.getvalue() at line 225: PIL images have no getvalue
attribute (the buffer buf was intended), so Python raises AttributeError. -/
def image_getvalue (img : PILImage) : Except PyErr (List Nat) :=
  let _ := img
  .error (.attributeError "getvalue")

/-- The loop of write_tfrecord_from_npy_single_channel (lines 219-226): the
datasets are pre-sized to len(imgs); each row is loaded, JPEG-compressed into
buf, and then the slot assignment evaluates bytearray(img.getvalue()). -/
def npy_loop (class_label : Nat) : List Nat → Nat → Shard → Except PyErr Shard
  | [], _, shard => .ok shard
  | row :: rest, i, shard =>
    let img := load_image_row row
    match image_getvalue img with
    | .error e => .error e
    | .ok bs =>
      npy_loop class_label rest (i + 1)
        ⟨h5set shard.images i bs, h5set shard.labels i class_label⟩

/-- Embedding of write_tfrecord_from_npy_single_channel (lines 172-229);
rows are the rows of the class .npy array. -/
def write_tfrecord_from_npy_single_channel (rows : List Nat) (class_label : Nat) :
    Except PyErr (Shard × Nat) :=
  match npy_loop class_label rows 0
      ⟨List.replicate rows.length [], List.replicate rows.length 0⟩ with
  | .error e => .error e
  | .ok shard => .ok (shard, rows.length)

/-- Whether loading and processing this (file, bbox) pair raises. -/
def load_fails (output_format : String) (invert_img : Bool)
    (fb : SourceFile × Option BBox) : Bool :=
  match load_and_process_image output_format invert_img fb.1 fb.2 with
  | .error _ => true
  | .ok _ => false

/-- The canonical encoded byte strings of the successfully loading files, in
input order. -/
def good_images (output_format : String) (invert_img : Bool)
    (files : List (SourceFile × Option BBox)) : List (List Nat) :=
  files.filterMap (fun fb => (load_and_process_image output_format invert_img fb.1 fb.2).toOption)

theorem load_and_process_image_error_isIOError
    {output_format : String} {invert_img : Bool} {file : SourceFile} {bbox : Option BBox}
    {e : PyErr} (h : load_and_process_image output_format invert_img file bbox = .error e) :
    isIOError e = true := by
  rw [load_and_process_image] at h
  cases hop : file.opened with
  | error msg =>
    rw [hop] at h
    cases h
    rfl
  | ok img =>
    rw [hop] at h
    cases h

theorem h5resize_append {β : Type} (xs : List β) (fill : β) :
    h5resize xs fill (xs.length + 1) = xs ++ [fill] := by
  rw [h5resize, List.take_of_length_le (by omega)]
  simp

theorem h5set_append_last {β : Type} (xs : List β) (fill v : β) :
    h5set (xs ++ [fill]) xs.length v = xs ++ [v] := by
  rw [h5set, List.set_append_right _ _ (Nat.le_refl _)]
  simp

/-- Full characterization of the writer loop when skip_on_error is set: it
never raises, appends exactly the successfully processed images in order, and
pads the labels dataset with the fill value 0. -/
theorem write_loop_skip_characterization (output_format : String) (invert_img : Bool)
    (files : List (SourceFile × Option BBox)) :
    ∀ (shard : Shard) (count : Nat),
    shard.images.length = count → shard.labels.length = count →
    write_loop output_format invert_img true files shard count =
      .ok (⟨shard.images ++ good_images output_format invert_img files,
            shard.labels ++ List.replicate (good_images output_format invert_img files).length 0⟩,
           count + (good_images output_format invert_img files).length) := by
  induction files with
  | nil =>
    intro shard count hI hL
    simp [write_loop, good_images]
  | cons fb rest ih =>
    intro shard count hI hL
    rw [write_loop]
    cases hload : load_and_process_image output_format invert_img fb.1 fb.2 with
    | error e =>
      have hio := load_and_process_image_error_isIOError hload
      have hgood : good_images output_format invert_img (fb :: rest)
          = good_images output_format invert_img rest := by
        simp [good_images, List.filterMap_cons, hload, Except.toOption]
      simp only [hio, Bool.and_self, if_true]
      rw [ih shard count hI hL, hgood]
    | ok img =>
      have e1 : h5resize shard.images [] (count + 1) = shard.images ++ [[]] := by
        rw [← hI, h5resize_append]
      have e2 : h5resize shard.labels 0 (count + 1) = shard.labels ++ [0] := by
        rw [← hL, h5resize_append]
      have e3 : h5set (shard.images ++ [[]]) count img = shard.images ++ [img] := by
        rw [← hI, h5set_append_last]
      have hgood : good_images output_format invert_img (fb :: rest)
          = img :: good_images output_format invert_img rest := by
        simp [good_images, List.filterMap_cons, hload, Except.toOption]
      simp only [e1, e2, e3]
      rw [ih ⟨shard.images ++ [img], shard.labels ++ [0]⟩ (count + 1)
        (by simp [hI]) (by simp [hL]), hgood]
      simp only [Except.ok.injEq, Prod.mk.injEq, Shard.mk.injEq]
      refine ⟨⟨?_, ?_⟩, ?_⟩
      · simp
      · simp [List.replicate_succ, List.append_assoc]
      · simp only [List.length_cons]
        omega

/-- The writer loop with skip_on_error unset raises the original error of the
first file that fails to load, aborting the class. -/
theorem write_loop_first_error (output_format : String) (invert_img : Bool)
    (pre : List (SourceFile × Option BBox)) (bad : SourceFile × Option BBox)
    (rest : List (SourceFile × Option BBox)) (e : PyErr)
    (hpre : ∀ fb ∈ pre, load_fails output_format invert_img fb = false)
    (hbad : load_and_process_image output_format invert_img bad.1 bad.2 = .error e) :
    ∀ (shard : Shard) (count : Nat),
    write_loop output_format invert_img false (pre ++ bad :: rest) shard count = .error e := by
  induction pre with
  | nil =>
    intro shard count
    rw [List.nil_append, write_loop, hbad]
    simp
  | cons fb pre2 ih =>
    intro shard count
    have hfb := hpre fb (List.mem_cons_self fb pre2)
    rw [List.cons_append, write_loop]
    cases hload : load_and_process_image output_format invert_img fb.1 fb.2 with
    | error e2 =>
      simp [load_fails, hload] at hfb
    | ok img =>
      exact ih (fun g hg => hpre g (List.mem_cons_of_mem fb hg)) _ _

theorem length_filter_not_add {β : Type} (p : β → Bool) (l : List β) :
    (l.filter (fun x => !p x)).length + (l.filter p).length = l.length := by
  induction l with
  | nil => rfl
  | cons x xs ih =>
    cases hp : p x <;> simp [List.filter_cons, hp, ← ih] <;> omega

theorem good_images_length (output_format : String) (invert_img : Bool)
    (files : List (SourceFile × Option BBox)) :
    (good_images output_format invert_img files).length
      = (files.filter (fun fb => !load_fails output_format invert_img fb)).length := by
  induction files with
  | nil => rfl
  | cons fb rest ih =>
    cases hload : load_and_process_image output_format invert_img fb.1 fb.2 with
    | error e =>
      have h1 : good_images output_format invert_img (fb :: rest)
          = good_images output_format invert_img rest := by
        simp [good_images, List.filterMap_cons, hload, Except.toOption]
      have h2 : load_fails output_format invert_img fb = true := by
        simp [load_fails, hload]
      rw [h1, List.filter_cons, ih]
      simp [h2]
    | ok img =>
      have h1 : good_images output_format invert_img (fb :: rest)
          = img :: good_images output_format invert_img rest := by
        simp [good_images, List.filterMap_cons, hload, Except.toOption]
      have h2 : load_fails output_format invert_img fb = false := by
        simp [load_fails, hload]
      rw [h1, List.filter_cons]
      simp [h2, ih]

/-- C6: with skip_on_error enabled, a class whose files contain exactly one
unloadable image yields a successfully written shard with count − 1 entries
(both datasets), processing having continued past the error; with the flag
disabled, the original read error of the first failing file propagates and
aborts the class. -/
theorem skip_on_error_policy (output_format : String) (invert_img : Bool)
    (class_label : Nat) (files : List (SourceFile × Option BBox)) :
    ((files.filter (load_fails output_format invert_img)).length = 1 →
      ∃ shard : Shard,
        write_tfrecord_from_image_files output_format invert_img class_label true files
          = .ok (shard, files.length - 1)
        ∧ shard.images.length = files.length - 1
        ∧ shard.labels.length = files.length - 1)
    ∧ (∀ (pre : List (SourceFile × Option BBox)) (bad : SourceFile × Option BBox)
        (rest : List (SourceFile × Option BBox)) (e : PyErr),
        files = pre ++ bad :: rest →
        (∀ fb ∈ pre, load_fails output_format invert_img fb = false) →
        load_and_process_image output_format invert_img bad.1 bad.2 = .error e →
        write_tfrecord_from_image_files output_format invert_img class_label false files
          = .error e) := by
  constructor
  · intro hone
    have hchar := write_loop_skip_characterization output_format invert_img files ⟨[], []⟩ 0
      rfl rfl
    have hlen : (good_images output_format invert_img files).length = files.length - 1 := by
      rw [good_images_length]
      have := length_filter_not_add (load_fails output_format invert_img) files
      omega
    refine ⟨⟨good_images output_format invert_img files,
      List.replicate (good_images output_format invert_img files).length 0⟩, ?_, ?_, ?_⟩
    · rw [write_tfrecord_from_image_files]
      simp only [hchar, hlen]
      simp
    · simpa using hlen
    · simpa using hlen
  · intro pre bad rest e hsplit hpre hbad
    rw [write_tfrecord_from_image_files, hsplit]
    exact write_loop_first_error output_format invert_img pre bad rest e hpre hbad ⟨[], []⟩ 0

/-- Concrete corrupt source file used by the witnesses. -/
def exBadFile : SourceFile :=
  { bytes := [1], opened := .error "cannot identify image file" }

/-- Witness: the skip-on-error policy on a class of 3 files whose middle file
is corrupt: with the flag it writes 2 entries, without it the IOError
propagates. -/
theorem skip_on_error_policy_witness :
    ((([(exGoodFile, none), (exBadFile, none), (exGrayFile, none)].filter
        (load_fails "JPEG" false)).length = 1)
      ∧ (∃ shard : Shard,
          write_tfrecord_from_image_files "JPEG" false 3 true
            [(exGoodFile, none), (exBadFile, none), (exGrayFile, none)]
            = .ok (shard, 3 - 1)
          ∧ shard.images.length = 3 - 1
          ∧ shard.labels.length = 3 - 1))
    ∧ write_tfrecord_from_image_files "JPEG" false 3 false
        [(exGoodFile, none), (exBadFile, none), (exGrayFile, none)]
        = .error (.ioError "cannot identify image file") := by
  have h := skip_on_error_policy "JPEG" false 3
    [(exGoodFile, none), (exBadFile, none), (exGrayFile, none)]
  refine ⟨⟨?_, ?_⟩, ?_⟩
  · rfl
  · exact h.1 (by rfl)
  · exact h.2 [(exGoodFile, none)] (exBadFile, none) [(exGrayFile, none)]
      (.ioError "cannot identify image file") rfl
      (by intro fb hfb; simp at hfb; rw [hfb]; rfl) rfl

/-- C2: evaluation of the writers at concrete inputs exhibiting the label

bug: a shard written for one source image with class_label 7 holds the image
bytes but a label of 0 (the fill value; the source never assigns the labels
slot), and the npy writer raises AttributeError on any nonempty class because
line 225 reads img.getvalue() instead of buf.getvalue(). -/
theorem shard_labels_bug :
    write_tfrecord_from_image_files "JPEG" false 7 false [(exGoodFile, none)]
      = .ok (⟨[exGoodFile.bytes], [0]⟩, 1)
    ∧ (0 : Nat) ≠ 7
    ∧ write_tfrecord_from_npy_single_channel [5] 3
      = .error (.attributeError "getvalue") := by
  refine ⟨?_, by decide, by rfl⟩
  rfl

/-- Observable file-producing events of a conversion run. -/
inductive ConvEvent
  | writeRecord (class_id : Nat)
  | writeSpec
deriving DecidableEq, Repr

/-- The per-class record-writing loop of create_dataset_specification_and_records
(for Quickdraw, parse_split_data over the three splits): write_class is the
per-class record creation (given abstractly as its outcome); a raising class
aborts the remainder of the loop. -/
def run_classes (write_class : Nat → Except PyErr Unit) :
    List Nat → List ConvEvent × Option PyErr
  | [] => ([], none)
  | c :: rest =>
    match write_class c with
    | .error e => ([], some e)
    | .ok _ =>
      let res := run_classes write_class rest
      (ConvEvent.writeRecord c :: res.1, res.2)

/-- QuickdrawConverter.create_dataset_specification_and_records (lines 806-829):
all per-class records in split order, then its own trailing
self.write_data_spec_pkl() call (line 829). -/
def create_spec_and_records (write_class : Nat → Except PyErr Unit) (classes : List Nat) :
    List ConvEvent × Option PyErr :=
  let res := run_classes write_class classes
  match res.2 with
  | none => (res.1 ++ [ConvEvent.writeSpec], none)
  | some e => (res.1, some e)

/-- DatasetConverter.convert_dataset (lines 521-531):
create_dataset_specification_and_records, then write_data_spec_pkl() again. -/
def convert_dataset (write_class : Nat → Except PyErr Unit) (classes : List Nat) :
    List ConvEvent × Option PyErr :=
  let res := create_spec_and_records write_class classes
  match res.2 with
  | none => (res.1 ++ [ConvEvent.writeSpec], none)
  | some e => (res.1, some e)

/-- Per-class writer that always succeeds, used in concrete runs. -/
def exWriteOk : Nat → Except PyErr Unit := fun _ => .ok ()

/-- Per-class writer that raises on every class, used in concrete runs. -/
def exWriteErr : Nat → Except PyErr Unit := fun _ => .error (.ioError "disk")

theorem run_classes_all_ok (write_class : Nat → Except PyErr Unit) (classes : List Nat)
    (hall : ∀ c ∈ classes, write_class c = .ok ()) :
    run_classes write_class classes = (classes.map ConvEvent.writeRecord, none) := by
  induction classes with
  | nil => rfl
  | cons c rest ih =>
    rw [run_classes, hall c (List.mem_cons_self c rest),
      ih (fun g hg => hall g (List.mem_cons_of_mem c hg))]
    rfl

theorem run_classes_fail_no_spec (write_class : Nat → Except PyErr Unit) :
    ∀ (classes : List Nat) (evs : List ConvEvent) (e : PyErr),
    run_classes write_class classes = (evs, some e) → ConvEvent.writeSpec ∉ evs := by
  intro classes
  induction classes with
  | nil =>
    intro evs e h
    cases h
  | cons c rest ih =>
    intro evs e h
    rw [run_classes] at h
    cases hw : write_class c with
    | error e2 =>
      rw [hw] at h
      cases h
      simp
    | ok u =>
      rw [hw] at h
      simp only at h
      have h1 : ConvEvent.writeRecord c :: (run_classes write_class rest).1 = evs :=
        congrArg Prod.fst h
      have h2 : (run_classes write_class rest).2 = some e := congrArg Prod.snd h
      intro hmem
      rw [← h1] at hmem
      rcases List.mem_cons.mp hmem with hx | hx
      · cases hx
      · exact ih (run_classes write_class rest).1 e
          (by rw [← h2]) hx

/-- Counterexample to C8 as stated: a successful two-class Quickdraw-style
conversion run writes the dataset specification file twice, not exactly
once — once by create_dataset_specification_and_records and once by
convert_dataset. -/
theorem spec_written_twice_cex :
    (convert_dataset exWriteOk [0, 1]).2 = none
    ∧ ((convert_dataset exWriteOk [0, 1]).1.countP
        (fun e => decide (e = ConvEvent.writeSpec))) = 2 := by
  constructor
  · rfl
  · rfl

/-- C8 (amended): on a successful conversion run the specification file is
written twice — once at the end of create_dataset_specification_and_records
and once more by convert_dataset — and both writes occur only after every
class's records have been created; if any per-class step raises, no
specification file is written by that run. -/
theorem spec_write_after_records (write_class : Nat → Except PyErr Unit) (classes : List Nat) :
    ((∀ c ∈ classes, write_class c = .ok ()) →
      convert_dataset write_class classes =
        (classes.map ConvEvent.writeRecord ++ [ConvEvent.writeSpec, ConvEvent.writeSpec], none))
    ∧ (∀ evs e, convert_dataset write_class classes = (evs, some e) →
        ConvEvent.writeSpec ∉ evs) := by
  constructor
  · intro hall
    rw [convert_dataset, create_spec_and_records, run_classes_all_ok write_class classes hall]
    simp
  · intro evs e h
    rw [convert_dataset, create_spec_and_records] at h
    cases hrun : run_classes write_class classes with
    | mk evs2 r2 =>
      rw [hrun] at h
      cases r2 with
      | none => simp at h
      | some e2 =>
        simp only at h
        have h1 : evs2 = evs := congrArg Prod.fst h
        rw [← h1]
        exact run_classes_fail_no_spec write_class classes evs2 e2 hrun

/-- Witness: the amended C8 statement at a concrete successful run and a
concrete failing run. -/
theorem spec_write_after_records_witness :
    ((∀ c ∈ ([0, 1] : List Nat), exWriteOk c = Except.ok ())
      ∧ convert_dataset exWriteOk [0, 1] =
          ([ConvEvent.writeRecord 0, ConvEvent.writeRecord 1,
            ConvEvent.writeSpec, ConvEvent.writeSpec], none))
    ∧ (convert_dataset exWriteErr [0, 1] = ([], some (PyErr.ioError "disk"))
      ∧ ConvEvent.writeSpec ∉ (convert_dataset exWriteErr [0, 1]).1) := by
  refine ⟨⟨fun c _ => rfl, ?_⟩, ⟨rfl, ?_⟩⟩
  · exact (spec_write_after_records exWriteOk [0, 1]).1 (fun c _ => rfl)
  · exact (spec_write_after_records exWriteErr [0, 1]).2
      [] (PyErr.ioError "disk") rfl

/-- Line 1136 of AircraftConverter.create_dataset_specification_and_records
invokes write_frecord_from_image_files; that name is defined nowhere in the
module (the module defines write_tfrecord_from_image_files) nor in builtins,
so evaluating the call raises NameError. -/
def aircraft_write_record_call : Except PyErr Unit :=
  .error (.nameError "write_frecord_from_image_files")

/-- AircraftConverter conversion through convert_dataset: the enumerate loop
over all_classes runs the per-class body whose record-writing step is the
undefined-name call. -/
def aircraft_convert_dataset (splits : SplitClassLists Nat) :
    List ConvEvent × Option PyErr :=
  convert_dataset (fun _ => aircraft_write_record_call)
    (List.range (all_classes splits).length)

/-- C10: for any Aircraft split assignment with at least one class, conversion
raises NameError for write_frecord_from_image_files while processing the
first class, so no Aircraft class record and no Aircraft specification file
is ever produced by convert_dataset. -/
theorem aircraft_name_error (splits : SplitClassLists Nat)
    (h : all_classes splits ≠ []) :
    aircraft_convert_dataset splits
      = ([], some (PyErr.nameError "write_frecord_from_image_files"))
    ∧ (∀ c, ConvEvent.writeRecord c ∉ (aircraft_convert_dataset splits).1)
    ∧ ConvEvent.writeSpec ∉ (aircraft_convert_dataset splits).1 := by
  have hlen : (all_classes splits).length ≠ 0 := by
    intro hc
    exact h (List.length_eq_zero.mp hc)
  have hmain : aircraft_convert_dataset splits
      = ([], some (PyErr.nameError "write_frecord_from_image_files")) := by
    rw [aircraft_convert_dataset]
    cases hr : List.range (all_classes splits).length with
    | nil =>
      exact absurd (by simpa using congrArg List.length hr) hlen
    | cons c rest =>
      rw [convert_dataset, create_spec_and_records, run_classes]
      rfl
  refine ⟨hmain, ?_, ?_⟩
  · intro c
    rw [hmain]
    simp
  · rw [hmain]
    simp

/-- Witness: the Aircraft failure at a concrete one-class split assignment. -/
theorem aircraft_name_error_witness :
    (all_classes (⟨[3], [], []⟩ : SplitClassLists Nat) ≠ [])
    ∧ aircraft_convert_dataset ⟨[3], [], []⟩
        = ([], some (PyErr.nameError "write_frecord_from_image_files")) :=
  ⟨by decide, (aircraft_name_error ⟨[3], [], []⟩ (by decide)).1⟩

/-- scale_box from MSCOCOConverter.get_image_crop_and_class_id (lines
1313-1319), in exact rational arithmetic.  At the claim's input
(10, 10, 10, 10) with ratio 1.2 the binary64 float computation also lands on
exactly (9, 9, 12, 12), so the rational model is faithful there. -/
def scale_box (bbox : ℚ × ℚ × ℚ × ℚ) (scale_ratio : ℚ) : ℚ × ℚ × ℚ × ℚ :=
  (bbox.1 - 0.5 * bbox.2.2.1 * (scale_ratio - 1.0),
   bbox.2.1 - 0.5 * bbox.2.2.2 * (scale_ratio - 1.0),
   bbox.2.2.1 * scale_ratio,
   bbox.2.2.2 * scale_ratio)

/-- Python 2 int(round(q)): round halves away from zero, then truncate the
integral float (the module is Python 2 code: it uses cmp and relies on map
returning a list). -/
def py2_round_int (q : ℚ) : Int :=
  if 0 ≤ q then ⌊q + 1 / 2⌋ else -⌊-q + 1 / 2⌋

/-- The integer crop bounds computed at lines 1329-1332: the scaled box is
converted from half-integer to full-integer coordinates and clamped to the
image extents. -/
def crop_bounds (bbox : ℚ × ℚ × ℚ × ℚ) (scale_ratio : ℚ) (image_w image_h : Int) :
    Int × Int × Int × Int :=
  let sb := scale_box bbox scale_ratio
  (max (py2_round_int (sb.1 - 0.5)) 0,
   max (py2_round_int (sb.2.1 - 0.5)) 0,
   min (py2_round_int (sb.1 + sb.2.2.1 - 0.5) + 1) image_w,
   min (py2_round_int (sb.2.1 + sb.2.2.2 - 0.5) + 1) image_h)

/-- Counterexample to C7 as stated: for bbox (10, 10, 10, 10) scaled by 1.2
on a 100 x 100 image (so clamping is inactive), the computed integer bounds
are not (8, 8, 22, 22) — the code's round(9 − 0.5) = round(8.5) rounds the
half up (away from zero), giving xmin = 9, not 8. -/
theorem crop_rounding_cex :
    crop_bounds (10, 10, 10, 10) 1.2 100 100 ≠ (8, 8, 22, 22) := by
  have h : crop_bounds (10, 10, 10, 10) 1.2 100 100 = (9, 9, 22, 22) := by
    have hx : ((10 : ℚ) - 0.5 * 10 * (1.2 - 1.0)) = 9 := by norm_num
    have hsb : scale_box (10, 10, 10, 10) 1.2 = (9, 9, 12, 12) := by
      rw [scale_box]
      norm_num
    rw [crop_bounds, hsb]
    have h1 : py2_round_int ((9 : ℚ) - 0.5) = 9 := by
      rw [py2_round_int, if_pos (by norm_num)]
      rw [show (9 : ℚ) - 0.5 + 1 / 2 = 9 by norm_num]
      exact Int.floor_intCast 9
    have h2 : py2_round_int ((9 : ℚ) + 12 - 0.5) = 21 := by
      rw [py2_round_int, if_pos (by norm_num)]
      rw [show (9 : ℚ) + 12 - 0.5 + 1 / 2 = 21 by norm_num]
      exact Int.floor_intCast 21
    rw [h1, h2]
    norm_num
  rw [h]
  decide

/-- C7 (amended): for the bounding box (x=10, y=10, w=10, h=10) scaled by
ratio 1.2, the box-scaling step produces the expanded box (9, 9, 12, 12),
and the half-integer-to-pixel conversion yields integer bounds xmin = 9,
ymin = 9, xmax = 22, ymax = 22 before clamping to the image extents (Python 2
round of coord − 0.5 with halves away from zero for the minima, the same
round of coord + size − 0.5 plus one for the maxima). -/
theorem crop_rounding_py2 :
    scale_box (10, 10, 10, 10) 1.2 = (9, 9, 12, 12)
    ∧ crop_bounds (10, 10, 10, 10) 1.2 100 100 = (9, 9, 22, 22) := by
  have hsb : scale_box (10, 10, 10, 10) 1.2 = (9, 9, 12, 12) := by
    rw [scale_box]
    norm_num
  refine ⟨hsb, ?_⟩
  rw [crop_bounds, hsb]
  have h1 : py2_round_int ((9 : ℚ) - 0.5) = 9 := by
    rw [py2_round_int, if_pos (by norm_num)]
    rw [show (9 : ℚ) - 0.5 + 1 / 2 = 9 by norm_num]
    exact Int.floor_intCast 9
  have h2 : py2_round_int ((9 : ℚ) + 12 - 0.5) = 21 := by
    rw [py2_round_int, if_pos (by norm_num)]
    rw [show (9 : ℚ) + 12 - 0.5 + 1 / 2 = 21 by norm_num]
    exact Int.floor_intCast 21
  rw [h1, h2]
  norm_num

end DatasetToHdf5
